import Mathlib

/-!
Verification of the PolicyGenerator-AI orchestration core.

The development shallowly embeds `src/policygenerator_ai/generator.py`:
the framework outline table, the policy assembler (prompt building,
per-section content generation with failure absorption, section loop with
the fixed cap of 5), and the two exporters, modelled as emitters of
document-instruction sequences.  The text-generation collaborator is an
explicit parameter of type `LLM`: a function from the chat request the
code builds to either a completion string or an error string.  Logging is
made explicit: operations return the list of log events they record.
-/

namespace PolicyGen

/-- `PolicyConfig` dataclass from `generator.py`. -/
structure PolicyConfig where
  framework : String
  organization_name : String
  industry : String
  size : String
  language : String := "en"
deriving DecidableEq

/-- One `{"title": ..., "content": ...}` dict appended by the section loop. -/
structure PolicySection where
  title : String
  content : String
deriving DecidableEq

/-- The `metadata` dict of the returned policy record. -/
structure PolicyMetadata where
  organization : String
  industry : String
  generated_by : String
deriving DecidableEq

/-- The dict returned by `generate_policy`. -/
structure PolicyRecord where
  title : String
  framework : String
  sections : List PolicySection
  metadata : PolicyMetadata
deriving DecidableEq

/-- One `{"role": ..., "content": ...}` message sent to the collaborator. -/
structure ChatMessage where
  role : String
  content : String
deriving DecidableEq

/-- The argument bundle of `openai.ChatCompletion.create` in
`_generate_section_content`.  The temperature `0.3` is carried as the
rational `3/10`; no arithmetic is ever performed on it. -/
structure ChatRequest where
  model : String
  messages : List ChatMessage
  temperature : ℚ
  max_tokens : Nat

/-- A structlog event: level, message, and keyword fields. -/
structure LogEvent where
  level : String
  message : String
  fields : List (String × String)
deriving DecidableEq

/-- The text-generation collaborator: succeeds with the completion text or
fails with an error message (network, quota, malformed response...). -/
def LLM : Type := ChatRequest → Except String String

/-- The `framework_templates` dict literal in `_generate_policy_sections`,
as an association list in source order. -/
def framework_templates : List (String × List String) :=
  [("ISO27001",
    ["Information Security Policy",
     "Organization of Information Security",
     "Human Resource Security",
     "Asset Management",
     "Access Control",
     "Cryptography",
     "Physical and Environmental Security",
     "Operations Security",
     "Communications Security",
     "System Acquisition, Development and Maintenance",
     "Supplier Relationships",
     "Information Security Incident Management",
     "Business Continuity Management",
     "Compliance"]),
   ("RGPD",
    ["Data Protection Principles",
     "Lawful Basis for Processing",
     "Data Subject Rights",
     "Data Security Measures",
     "Data Breach Notification",
     "Data Protection Impact Assessment",
     "Data Protection Officer",
     "International Data Transfers"]),
   ("NIS2",
    ["Risk Management",
     "Corporate Governance",
     "Business Continuity",
     "Supply Chain Security",
     "Security in Network and Information Systems",
     "Incident Handling",
     "Security Testing and Auditing"])]

/-- `framework_templates.get(config.framework, [])`: the outline lookup. -/
def sectionsFor (framework : String) : List String :=
  match framework_templates.lookup framework with
  | some titles => titles
  | none => []

/-- The f-string prompt built in `_generate_section_content`. -/
def build_prompt (section_name : String) (config : PolicyConfig) : String :=
  "Generate a comprehensive " ++ section_name ++ " section for a " ++
  config.framework ++ " security policy.\n\nOrganization: " ++
  config.organization_name ++ "\nIndustry: " ++ config.industry ++
  "\nSize: " ++ config.size ++
  "\n\nProvide detailed, professional content with:\n- Clear objectives\n- Specific requirements\n- Implementation guidelines\n- Compliance requirements\n\nFormat in professional policy language."

/-- The chat-completion request `_generate_section_content` sends. -/
def chat_request (section_name : String) (config : PolicyConfig) : ChatRequest :=
  { model := "gpt-4",
    messages :=
      [⟨"system", "You are a cybersecurity policy expert."⟩,
       ⟨"user", build_prompt section_name config⟩],
    temperature := 3 / 10,
    max_tokens := 1000 }

/-- The placeholder substituted when generation fails. -/
def placeholder (section_name : String) : String :=
  "[Section content for " ++ section_name ++ "]"

/-- The diagnostic event logged on a generation failure. -/
def llm_failure_event (e : String) : LogEvent :=
  ⟨"error", "LLM generation failed", [("error", e)]⟩

/-- The body of the `try` block in `_generate_section_content`: the
collaborator call, whose failure propagates. -/
def generate_section_content_raw (llm : LLM) (section_name : String)
    (config : PolicyConfig) : Except String String :=
  llm (chat_request section_name config)

/-- The `except` clause: a failed `Except` computation is replaced by the
handler's result.  This is the embedding of `try ... except Exception`. -/
def catchE {α : Type} (x : Except String α) (handler : String → α) : α :=
  match x with
  | .ok v => v
  | .error e => handler e

/-- `_generate_section_content`: the collaborator call with every failure
absorbed into a placeholder plus a diagnostic event.  Returns the section
content and the log events recorded. -/
def generate_section_content (llm : LLM) (section_name : String)
    (config : PolicyConfig) : String × List LogEvent :=
  catchE (Except.map (fun c => (c, ([] : List LogEvent)))
            (generate_section_content_raw llm section_name config))
    (fun e => (placeholder section_name, [llm_failure_event e]))

/-- The `for section_name in section_names[:5]` loop body, iterated over an
explicit name list: builds the section list and accumulates log events in
iteration order. -/
def build_sections (llm : LLM) (config : PolicyConfig) :
    List String → List PolicySection × List LogEvent
  | [] => ([], [])
  | n :: rest =>
    let cl := generate_section_content llm n config
    let sl := build_sections llm config rest
    (⟨n, cl.1⟩ :: sl.1, cl.2 ++ sl.2)

/-- `_generate_policy_sections`: outline lookup, truncation to the first 5
titles, and the generation loop. -/
def generate_policy_sections (llm : LLM) (config : PolicyConfig) :
    List PolicySection × List LogEvent :=
  build_sections llm config ((sectionsFor config.framework).take 5)

/-- The `logger.info("Generating policy", framework=...)` event. -/
def generating_event (config : PolicyConfig) : LogEvent :=
  ⟨"info", "Generating policy", [("framework", config.framework)]⟩

/-- `generate_policy`: assembles the policy record from the generated
sections and static metadata.  Returns the record and the log events. -/
def generate_policy (llm : LLM) (config : PolicyConfig) :
    PolicyRecord × List LogEvent :=
  let sl := generate_policy_sections llm config
  ({ title := config.framework ++ " Security Policy - " ++ config.organization_name,
     framework := config.framework,
     sections := sl.1,
     metadata :=
       { organization := config.organization_name,
         industry := config.industry,
         generated_by := "Ayi NEDJIMI - ayinedjimi-consultants.fr" } },
   generating_event config :: sl.2)

/-- `_generate_section_content` replayed in the `Except` monad, with the
source's `try/except` as an explicit recovery of the raw call: the result
is `.error` exactly when a collaborator failure would escape the handler. -/
def generate_section_content_E (llm : LLM) (section_name : String)
    (config : PolicyConfig) : Except String (String × List LogEvent) :=
  match generate_section_content_raw llm section_name config with
  | .ok c => .ok (c, [])
  | .error e => .ok (placeholder section_name, [llm_failure_event e])

/-- The section loop replayed in the `Except` monad: any escaping failure
of a loop iteration would abort the whole loop. -/
def build_sections_E (llm : LLM) (config : PolicyConfig) :
    List String → Except String (List PolicySection × List LogEvent)
  | [] => .ok ([], [])
  | n :: rest => do
    let cl ← generate_section_content_E llm n config
    let sl ← build_sections_E llm config rest
    .ok (⟨n, cl.1⟩ :: sl.1, cl.2 ++ sl.2)

/-- `generate_policy` replayed in the `Except` monad: `.error` exactly when
some failure would propagate out of the assembly. -/
def generate_policy_E (llm : LLM) (config : PolicyConfig) :
    Except String (PolicyRecord × List LogEvent) := do
  let sl ← build_sections_E llm config ((sectionsFor config.framework).take 5)
  .ok
    ({ title := config.framework ++ " Security Policy - " ++ config.organization_name,
       framework := config.framework,
       sections := sl.1,
       metadata :=
         { organization := config.organization_name,
           industry := config.industry,
           generated_by := "Ayi NEDJIMI - ayinedjimi-consultants.fr" } },
     generating_event config :: sl.2)

/-- One instruction issued to the Word-like document writer. -/
inductive DocxItem where
  | heading : String → Nat → DocxItem
  | para : String → DocxItem
  | pageBreak : DocxItem
deriving DecidableEq

/-- The mutable `docx.Document` object, as its instruction stream. -/
structure Docx where
  items : List DocxItem
deriving DecidableEq

/-- `doc.add_heading(text, level)`. -/
def Docx.add_heading (d : Docx) (text : String) (level : Nat) : Docx :=
  ⟨d.items ++ [.heading text level]⟩

/-- `doc.add_paragraph(text)`. -/
def Docx.add_paragraph (d : Docx) (text : String) : Docx :=
  ⟨d.items ++ [.para text]⟩

/-- `doc.add_page_break()`. -/
def Docx.add_page_break (d : Docx) : Docx :=
  ⟨d.items ++ [.pageBreak]⟩

/-- `export_to_docx`, up to the final `doc.save(path)` I/O call: the
sequence of writer instructions the method issues, in program order. -/
def export_to_docx (policy : PolicyRecord) : Docx :=
  let doc : Docx := ⟨[]⟩
  let doc := doc.add_heading policy.title 0
  let doc := doc.add_paragraph ("Organization: " ++ policy.metadata.organization)
  let doc := doc.add_paragraph ("Framework: " ++ policy.framework)
  let doc := doc.add_paragraph ("Generated by: " ++ policy.metadata.generated_by)
  let doc := doc.add_page_break
  policy.sections.foldl
    (fun d s => ((d.add_heading s.title 1).add_paragraph s.content).add_page_break)
    doc

/-- One flow block appended to the reportlab `story`. -/
inductive PdfBlock where
  | para : String → String → PdfBlock
  | spacer : Nat → Nat → PdfBlock
deriving DecidableEq

/-- `export_to_pdf`, up to the final `doc.build(story)` I/O call: the
ordered list of flow blocks the method assembles.  A `para text style`
block is `Paragraph(text, styles[style])`. -/
def export_to_pdf (policy : PolicyRecord) : List PdfBlock :=
  let story : List PdfBlock := []
  let story := story ++ [.para policy.title "Title"]
  let story := story ++ [.spacer 1 12]
  let story := story ++
    [.para ("Organization: " ++ policy.metadata.organization) "Normal"]
  let story := story ++ [.spacer 1 12]
  policy.sections.foldl
    (fun st s => st ++
      [.para s.title "Heading1", .spacer 1 6,
       .para s.content "Normal", .spacer 1 12])
    story

/-- The headings of a docx instruction stream, with their levels, in order. -/
def docxHeadings (items : List DocxItem) : List (String × Nat) :=
  items.filterMap fun i =>
    match i with
    | .heading t l => some (t, l)
    | _ => none

/-- The heading-styled blocks of a pdf story (styles `Title` and
`Heading1`), with their styles, in order. -/
def pdfHeadings (blocks : List PdfBlock) : List (String × String) :=
  blocks.filterMap fun b =>
    match b with
    | .para t s => if s = "Title" ∨ s = "Heading1" then some (t, s) else none
    | _ => none

/-- The scenario configuration of the spec: RGPD for Acme. -/
def acmeConfig : PolicyConfig :=
  { framework := "RGPD", organization_name := "Acme",
    industry := "Finance", size := "medium", language := "en" }

/-- A collaborator that fails on every request. -/
def llmDown : LLM := fun _ => .error "network unreachable"

/-- A collaborator that succeeds on every request with fixed text. -/
def llmFixed : LLM := fun _ => .ok "Generated body."

/-- A configuration whose framework is not in the outline table. -/
def unknownConfig : PolicyConfig :=
  { framework := "UNKNOWN_FW", organization_name := "Acme",
    industry := "Finance", size := "medium", language := "en" }

/-- `acmeConfig` with the language changed to French; used to check that
generation is language-independent. -/
def acmeConfigFr : PolicyConfig :=
  { framework := "RGPD", organization_name := "Acme",
    industry := "Finance", size := "medium", language := "fr" }

/-! ## Helper lemmas -/

/-- A successful collaborator call is passed through untouched: content is
the returned text and nothing is logged. -/
theorem generate_section_content_of_ok (llm : LLM) (s : String)
    (config : PolicyConfig) (txt : String)
    (hok : llm (chat_request s config) = .ok txt) :
    generate_section_content llm s config = (txt, []) := by
  simp [generate_section_content, generate_section_content_raw, catchE, hok,
    Except.map]

/-- A failed collaborator call is absorbed: placeholder content plus one
diagnostic event. -/
theorem generate_section_content_of_error (llm : LLM) (s : String)
    (config : PolicyConfig) (e : String)
    (herr : llm (chat_request s config) = .error e) :
    generate_section_content llm s config =
      (placeholder s, [llm_failure_event e]) := by
  simp [generate_section_content, generate_section_content_raw, catchE, herr,
    Except.map]

/-- The section list built by the loop is the name list mapped through
per-section content generation. -/
theorem build_sections_fst (llm : LLM) (config : PolicyConfig)
    (names : List String) :
    (build_sections llm config names).1 =
      names.map (fun n => ⟨n, (generate_section_content llm n config).1⟩) := by
  induction names with
  | nil => rfl
  | cons n rest ih => simp [build_sections, ih]

/-- The log events of the loop are the per-section events, concatenated in
iteration order. -/
theorem build_sections_snd (llm : LLM) (config : PolicyConfig)
    (names : List String) :
    (build_sections llm config names).2 =
      names.flatMap (fun n => (generate_section_content llm n config).2) := by
  induction names with
  | nil => rfl
  | cons n rest ih => simp [build_sections, ih]

/-- The sections of the assembled record: the first five outline titles,
each paired with its generated content. -/
theorem generate_policy_sections_eq (llm : LLM) (config : PolicyConfig) :
    (generate_policy llm config).1.sections =
      ((sectionsFor config.framework).take 5).map
        (fun n => ⟨n, (generate_section_content llm n config).1⟩) := by
  simp [generate_policy, generate_policy_sections, build_sections_fst]

/-- The log events of a full run: the initial info event, then the
per-section events in order. -/
theorem generate_policy_logs_eq (llm : LLM) (config : PolicyConfig) :
    (generate_policy llm config).2 =
      generating_event config ::
        ((sectionsFor config.framework).take 5).flatMap
          (fun n => (generate_section_content llm n config).2) := by
  simp [generate_policy, generate_policy_sections, build_sections_snd]

/-- Per-section generation never lets a failure escape. -/
theorem generate_section_content_E_ok (llm : LLM) (s : String)
    (config : PolicyConfig) :
    generate_section_content_E llm s config =
      .ok (generate_section_content llm s config) := by
  simp [generate_section_content_E, generate_section_content, catchE,
    Except.map]
  cases generate_section_content_raw llm s config <;> rfl

/-- The section loop never lets a failure escape. -/
theorem build_sections_E_ok (llm : LLM) (config : PolicyConfig)
    (names : List String) :
    build_sections_E llm config names = .ok (build_sections llm config names) := by
  induction names with
  | nil => rfl
  | cons n rest ih =>
    simp only [build_sections_E, build_sections, generate_section_content_E_ok,
      ih]
    rfl

/-- Unrolling the docx section loop: it appends one heading/paragraph/break
block per section, in section order. -/
theorem docx_section_loop (l : List PolicySection) (d : Docx) :
    (l.foldl
      (fun d s => ((d.add_heading s.title 1).add_paragraph s.content).add_page_break)
      d).items =
      d.items ++ l.flatMap
        (fun s => [.heading s.title 1, .para s.content, .pageBreak]) := by
  induction l generalizing d with
  | nil => simp
  | cons s rest ih =>
    rw [List.foldl_cons, ih]
    simp [Docx.add_heading, Docx.add_paragraph, Docx.add_page_break]

/-- Unrolling the pdf section loop: it appends one
heading/spacer/paragraph/spacer block per section, in section order. -/
theorem pdf_section_loop (l : List PolicySection) (st : List PdfBlock) :
    l.foldl
      (fun st s => st ++
        [.para s.title "Heading1", .spacer 1 6,
         .para s.content "Normal", .spacer 1 12])
      st =
      st ++ l.flatMap
        (fun s => [.para s.title "Heading1", .spacer 1 6,
                   .para s.content "Normal", .spacer 1 12]) := by
  induction l generalizing st with
  | nil => simp
  | cons s rest ih => simp [List.foldl_cons, ih]

/-- The headings contributed by the docx section loop: one level-1 heading
per section, in section order. -/
theorem docxHeadings_section_blocks (l : List PolicySection) :
    docxHeadings
      (l.flatMap (fun s => [.heading s.title 1, .para s.content, .pageBreak])) =
      l.map (fun s => (s.title, 1)) := by
  induction l with
  | nil => rfl
  | cons s rest ih =>
    simp only [List.flatMap_cons, docxHeadings, List.filterMap_append] at *
    simp [ih]

/-- The heading-styled blocks contributed by the pdf section loop: one
`Heading1` paragraph per section, in section order. -/
theorem pdfHeadings_section_blocks (l : List PolicySection) :
    pdfHeadings
      (l.flatMap (fun s =>
        [.para s.title "Heading1", .spacer 1 6,
         .para s.content "Normal", .spacer 1 12])) =
      l.map (fun s => (s.title, "Heading1")) := by
  induction l with
  | nil => rfl
  | cons s rest ih =>
    simp only [List.flatMap_cons, pdfHeadings, List.filterMap_append] at *
    simp [ih]

/-- Per-section generation depends on the configuration only through the
chat request, which ignores the language field. -/
theorem generate_section_content_congr (llm : LLM) (n : String)
    (c1 c2 : PolicyConfig) (hf : c1.framework = c2.framework)
    (ho : c1.organization_name = c2.organization_name)
    (hi : c1.industry = c2.industry) (hs : c1.size = c2.size) :
    generate_section_content llm n c1 = generate_section_content llm n c2 := by
  obtain ⟨f1, o1, i1, s1, l1⟩ := c1
  obtain ⟨f2, o2, i2, s2, l2⟩ := c2
  dsimp only at hf ho hi hs
  subst hf; subst ho; subst hi; subst hs
  rfl

/-- The section loop is a congruence in the per-section generator. -/
theorem build_sections_congr (llm : LLM) (c1 c2 : PolicyConfig)
    (h : ∀ n, generate_section_content llm n c1 = generate_section_content llm n c2) :
    ∀ names, build_sections llm c1 names = build_sections llm c2 names := by
  intro names
  induction names with
  | nil => rfl
  | cons n rest ih => simp [build_sections, h n, ih]

/-- Whole-run congruence: two configurations agreeing on framework,
organization, industry and size produce identical runs. -/
theorem generate_policy_congr (llm : LLM) (c1 c2 : PolicyConfig)
    (hf : c1.framework = c2.framework)
    (ho : c1.organization_name = c2.organization_name)
    (hi : c1.industry = c2.industry) (hs : c1.size = c2.size) :
    generate_policy llm c1 = generate_policy llm c2 := by
  obtain ⟨f1, o1, i1, s1, l1⟩ := c1
  obtain ⟨f2, o2, i2, s2, l2⟩ := c2
  dsimp only at hf ho hi hs
  subst hf; subst ho; subst hi; subst hs
  have hgsc : ∀ n,
      generate_section_content llm n ⟨f1, o1, i1, s1, l1⟩ =
        generate_section_content llm n ⟨f1, o1, i1, s1, l2⟩ := fun _ => rfl
  unfold generate_policy generate_policy_sections
  rw [build_sections_congr llm _ _ hgsc]
  rfl

/-! ## Claim theorems -/

/-- C1: every run yields exactly `min 5 (sectionsFor framework).length`
sections, whose titles are the first five outline titles in outline order,
and never more than 5 sections. -/
theorem section_count_and_order (llm : LLM) (config : PolicyConfig) :
    (generate_policy llm config).1.sections.length =
      min 5 (sectionsFor config.framework).length ∧
    (generate_policy llm config).1.sections.map PolicySection.title =
      (sectionsFor config.framework).take 5 ∧
    (generate_policy llm config).1.sections.length ≤ 5 := by
  have h := generate_policy_sections_eq llm config
  have hid : (PolicySection.title ∘ fun n =>
      (⟨n, (generate_section_content llm n config).1⟩ : PolicySection)) = id := rfl
  refine ⟨?_, ?_, ?_⟩
  · rw [h, List.length_map, List.length_take]
  · rw [h, List.map_map, hid, List.map_id]
  · rw [h, List.length_map, List.length_take]
    exact min_le_left _ _

/-- C2: the RGPD/Acme scenario: the run titled
`RGPD Security Policy - Acme` carries exactly the five first RGPD outline
titles, in order. -/
theorem rgpd_acme_scenario (llm : LLM) :
    (generate_policy llm acmeConfig).1.title = "RGPD Security Policy - Acme" ∧
    (generate_policy llm acmeConfig).1.sections.map PolicySection.title =
      ["Data Protection Principles", "Lawful Basis for Processing",
       "Data Subject Rights", "Data Security Measures",
       "Data Breach Notification"] ∧
    (generate_policy llm acmeConfig).1.sections.length = 5 := by
  have hid : (PolicySection.title ∘ fun n =>
      (⟨n, (generate_section_content llm n acmeConfig).1⟩ : PolicySection)) = id := rfl
  refine ⟨?_, ?_, ?_⟩
  · simp [generate_policy, acmeConfig]
  · rw [generate_policy_sections_eq, List.map_map, hid, List.map_id]
    decide
  · rw [generate_policy_sections_eq, List.length_map]
    decide

/-- C3: a framework absent from the outline table yields a record with an
empty section list and the usual derived title, with no failure. -/
theorem unknown_framework_yields_empty (llm : LLM) (config : PolicyConfig)
    (h : config.framework ∉ framework_templates.map Prod.fst) :
    (generate_policy llm config).1.sections = [] ∧
    (generate_policy llm config).1.title =
      config.framework ++ " Security Policy - " ++ config.organization_name := by
  have h1 : ¬(config.framework = "ISO27001" ∨ config.framework = "RGPD" ∨
      config.framework = "NIS2") := by
    simpa [framework_templates] using h
  push_neg at h1
  obtain ⟨e1, e2, e3⟩ := h1
  have b1 : (config.framework == "ISO27001") = false := by
    rw [beq_eq_false_iff_ne]; exact e1
  have b2 : (config.framework == "RGPD") = false := by
    rw [beq_eq_false_iff_ne]; exact e2
  have b3 : (config.framework == "NIS2") = false := by
    rw [beq_eq_false_iff_ne]; exact e3
  have hsec : sectionsFor config.framework = [] := by
    simp [sectionsFor, framework_templates, List.lookup, b1, b2, b3]
  refine ⟨?_, rfl⟩
  rw [generate_policy_sections_eq, hsec]
  rfl

/-- C3 witness: the `UNKNOWN_FW` scenario, with a failing collaborator. -/
theorem unknown_framework_yields_empty_witness :
    (generate_policy llmDown unknownConfig).1.sections = [] ∧
    (generate_policy llmDown unknownConfig).1.title =
      unknownConfig.framework ++ " Security Policy - " ++
        unknownConfig.organization_name :=
  unknown_framework_yields_empty llmDown unknownConfig (by decide)

/-- C5: the assembly never fails, for any collaborator behaviour: the
`Except`-replayed run is `.ok` of the actual run, and an empty outline
yields a record with zero sections. -/
theorem generate_policy_never_fails (llm : LLM) (config : PolicyConfig) :
    generate_policy_E llm config = .ok (generate_policy llm config) ∧
    (sectionsFor config.framework = [] →
      (generate_policy llm config).1.sections = []) := by
  constructor
  · unfold generate_policy_E generate_policy generate_policy_sections
    rw [build_sections_E_ok]
    rfl
  · intro h
    rw [generate_policy_sections_eq, h]
    rfl

/-- C5 witness: a run with a collaborator that fails on every request and a
framework with an empty outline. -/
theorem generate_policy_never_fails_witness :
    generate_policy_E llmDown unknownConfig =
      .ok (generate_policy llmDown unknownConfig) ∧
    (sectionsFor unknownConfig.framework = [] →
      (generate_policy llmDown unknownConfig).1.sections = []) :=
  generate_policy_never_fails llmDown unknownConfig

/-- C6: every framework in the outline table has a non-empty outline with
no duplicate titles. -/
theorem known_framework_outline_valid (fw : String)
    (h : fw ∈ framework_templates.map Prod.fst) :
    sectionsFor fw ≠ [] ∧ (sectionsFor fw).Nodup := by
  have h3 : fw = "ISO27001" ∨ fw = "RGPD" ∨ fw = "NIS2" := by
    simpa [framework_templates] using h
  rcases h3 with rfl | rfl | rfl <;> exact ⟨by decide, by decide⟩

/-- C6 witness: the ISO27001 outline. -/
theorem known_framework_outline_valid_witness :
    sectionsFor "ISO27001" ≠ [] ∧ (sectionsFor "ISO27001").Nodup :=
  known_framework_outline_valid "ISO27001" (by decide)

/-- C7: both exporters are order-preserving and render every section: the
headings each one emits are exactly the title heading followed by one
heading per section, in the order of `record.sections`, whatever the
section contents are (placeholders included). -/
theorem exporters_order_preserving (record : PolicyRecord) :
    docxHeadings (export_to_docx record).items =
      (record.title, 0) :: record.sections.map (fun s => (s.title, 1)) ∧
    pdfHeadings (export_to_pdf record) =
      (record.title, "Title") ::
        record.sections.map (fun s => (s.title, "Heading1")) := by
  constructor
  · unfold export_to_docx
    rw [docx_section_loop]
    simp only [Docx.add_heading, Docx.add_paragraph, Docx.add_page_break,
      docxHeadings, List.filterMap_append]
    rw [← docxHeadings_section_blocks record.sections]
    rfl
  · unfold export_to_pdf
    rw [pdf_section_loop]
    simp only [pdfHeadings, List.filterMap_append]
    rw [← pdfHeadings_section_blocks record.sections]
    rfl

/-- C8: the Word-like export emits, in order: a heading for the title, the
three metadata lines, a page break, then per section a level-1 heading,
the section content, and a page break. -/
theorem docx_export_structure (record : PolicyRecord) :
    (export_to_docx record).items =
      [DocxItem.heading record.title 0,
       DocxItem.para ("Organization: " ++ record.metadata.organization),
       DocxItem.para ("Framework: " ++ record.framework),
       DocxItem.para ("Generated by: " ++ record.metadata.generated_by),
       DocxItem.pageBreak] ++
      record.sections.flatMap
        (fun s => [DocxItem.heading s.title 1, DocxItem.para s.content,
                   DocxItem.pageBreak]) := by
  unfold export_to_docx
  rw [docx_section_loop]
  simp [Docx.add_heading, Docx.add_paragraph, Docx.add_page_break]

/-- C4: if the collaborator fails on the request for section title `s`,
then every produced section titled `s` carries exactly the placeholder
content, the diagnostic event is recorded, the failure is not propagated,
and sections at positions whose title is not `s` are unaffected: any
collaborator agreeing with the failing one away from `s` yields the same
section there. -/
theorem failed_section_isolated (llm : LLM) (config : PolicyConfig)
    (s e : String) (hfail : llm (chat_request s config) = .error e)
    (hmem : s ∈ (sectionsFor config.framework).take 5) :
    (∀ sec ∈ (generate_policy llm config).1.sections,
        sec.title = s → sec.content = placeholder s) ∧
    llm_failure_event e ∈ (generate_policy llm config).2 ∧
    generate_section_content_E llm s config =
      Except.ok (placeholder s, [llm_failure_event e]) ∧
    ∀ llm2 : LLM,
      (∀ t, t ≠ s → llm2 (chat_request t config) = llm (chat_request t config)) →
      ∀ i : Nat,
        ((generate_policy llm config).1.sections.get? i).map PolicySection.title
          ≠ some s →
        (generate_policy llm2 config).1.sections.get? i =
          (generate_policy llm config).1.sections.get? i := by
  refine ⟨?_, ?_, ?_, ?_⟩
  · intro sec hsec hst
    rw [generate_policy_sections_eq] at hsec
    obtain ⟨n, hn, rfl⟩ := List.mem_map.mp hsec
    have hns : n = s := hst
    subst hns
    show (generate_section_content llm n config).1 = placeholder n
    rw [generate_section_content_of_error llm n config e hfail]
  · rw [generate_policy_logs_eq]
    refine List.mem_cons_of_mem _ (List.mem_flatMap.mpr ⟨s, hmem, ?_⟩)
    rw [generate_section_content_of_error llm s config e hfail]
    simp
  · unfold generate_section_content_E generate_section_content_raw
    rw [hfail]
  · intro llm2 hagree i hi
    rw [generate_policy_sections_eq] at hi ⊢
    rw [generate_policy_sections_eq]
    rw [List.get?_map] at hi ⊢
    rw [List.get?_map]
    cases hg : ((sectionsFor config.framework).take 5).get? i with
    | none => rfl
    | some n =>
      have hns : n ≠ s := by
        rw [hg] at hi
        simpa using hi
      have ha := hagree n hns
      simp [generate_section_content, generate_section_content_raw, ha]

/-- C4 witness: a collaborator down on every request, in the RGPD/Acme
scenario, for the first RGPD section. -/
theorem failed_section_isolated_witness :
    (∀ sec ∈ (generate_policy llmDown acmeConfig).1.sections,
        sec.title = "Data Protection Principles" →
          sec.content = placeholder "Data Protection Principles") ∧
    llm_failure_event "network unreachable" ∈
      (generate_policy llmDown acmeConfig).2 ∧
    generate_section_content_E llmDown "Data Protection Principles" acmeConfig =
      Except.ok (placeholder "Data Protection Principles",
        [llm_failure_event "network unreachable"]) ∧
    ∀ llm2 : LLM,
      (∀ t, t ≠ "Data Protection Principles" →
        llm2 (chat_request t acmeConfig) = llmDown (chat_request t acmeConfig)) →
      ∀ i : Nat,
        ((generate_policy llmDown acmeConfig).1.sections.get? i).map
            PolicySection.title ≠ some "Data Protection Principles" →
        (generate_policy llm2 acmeConfig).1.sections.get? i =
          (generate_policy llmDown acmeConfig).1.sections.get? i :=
  failed_section_isolated llmDown acmeConfig "Data Protection Principles"
    "network unreachable" rfl (by decide)

/-- C9: generation ignores the language field: configurations agreeing on
framework, organization, industry and size yield identical prompts for
every section title and identical runs under any fixed collaborator. -/
theorem language_noninterference (llm : LLM) (c1 c2 : PolicyConfig)
    (hf : c1.framework = c2.framework)
    (ho : c1.organization_name = c2.organization_name)
    (hi : c1.industry = c2.industry) (hs : c1.size = c2.size) :
    (∀ s, build_prompt s c1 = build_prompt s c2) ∧
    generate_policy llm c1 = generate_policy llm c2 := by
  constructor
  · intro s
    unfold build_prompt
    rw [hf, ho, hi, hs]
  · exact generate_policy_congr llm c1 c2 hf ho hi hs

/-- C9 witness: the Acme configuration in English versus in French. -/
theorem language_noninterference_witness :
    (∀ s, build_prompt s acmeConfig = build_prompt s acmeConfigFr) ∧
    generate_policy llmDown acmeConfig = generate_policy llmDown acmeConfigFr :=
  language_noninterference llmDown acmeConfig acmeConfigFr rfl rfl rfl rfl

/-- C10: a successful collaborator response is stored untouched as the
section content, with nothing logged; and placeholder-shaped content does
not by itself imply a failure, since a collaborator returning exactly the
placeholder text yields it with an empty log. -/
theorem success_content_passthrough (llm : LLM) (config : PolicyConfig)
    (s txt : String) (hok : llm (chat_request s config) = .ok txt) :
    generate_section_content llm s config = (txt, []) ∧
    (∀ sec ∈ (generate_policy llm config).1.sections,
        sec.title = s → sec.content = txt) ∧
    ∀ c2 : PolicyConfig, ∃ llm2 : LLM,
      generate_section_content llm2 s c2 = (placeholder s, []) := by
  refine ⟨generate_section_content_of_ok llm s config txt hok, ?_, ?_⟩
  · intro sec hsec hst
    rw [generate_policy_sections_eq] at hsec
    obtain ⟨n, hn, rfl⟩ := List.mem_map.mp hsec
    have hns : n = s := hst
    subst hns
    show (generate_section_content llm n config).1 = txt
    rw [generate_section_content_of_ok llm n config txt hok]
  · intro c2
    exact ⟨fun _ => .ok (placeholder s),
      generate_section_content_of_ok _ s c2 (placeholder s) rfl⟩

/-- C10 witness: a collaborator answering with fixed text, in the
RGPD/Acme scenario, for the first RGPD section. -/
theorem success_content_passthrough_witness :
    generate_section_content llmFixed "Data Protection Principles" acmeConfig =
      ("Generated body.", []) ∧
    (∀ sec ∈ (generate_policy llmFixed acmeConfig).1.sections,
        sec.title = "Data Protection Principles" →
          sec.content = "Generated body.") ∧
    ∀ c2 : PolicyConfig, ∃ llm2 : LLM,
      generate_section_content llm2 "Data Protection Principles" c2 =
        (placeholder "Data Protection Principles", []) :=
  success_content_passthrough llmFixed acmeConfig "Data Protection Principles"
    "Generated body." rfl

end PolicyGen
